import Mathlib

/-
  Verification of the Twilio <-> ElevenLabs bridge
  (repository n8n-makiii/n8n-elevenlabs).

  The repository contains three variants of the same single-file bridge:
  - an express-ws variant (src/unnamed/part_000, first document) that
    forwards call audio to the agent leg and sends a commit on stop;
  - a robust-dialer variant (src/unnamed/part_000, second document) with
    dialElevenLabsWS trying several candidate endpoints and auth modes;
  - two keep-alive variants (src/server.js and src/unnamed/part_001)
    whose media case is an explicit stub.

  Each namespace below is a shallow embedding of one of these pieces,
  translated line by line from the source. Machine-level socket behavior
  is reduced to the fields the code reads and writes (readyState, the
  isAlive flag, traces of send and close calls).
-/

namespace Ws

/-- The four readyState constants of the ws WebSocket library. -/
inductive ReadyState
  | CONNECTING
  | OPEN
  | CLOSING
  | CLOSED
deriving DecidableEq

end Ws

/-! ### Shared Twilio-leg message vocabulary

Both variants parse the same Twilio stream events. A raw frame either
fails to parse, parses without an event field, or carries one of the
events the switch statements dispatch on. The start payload carries the
optional streamSid field (optional chaining in the keep-alive variants). -/

inductive TwEvent
  | start (sid : Option String)
  | media (payload : String)
  | stop
  | otherEvent
deriving DecidableEq

inductive RawTw
  | invalid
  | noEvent
  | evt (e : TwEvent)
deriving DecidableEq

namespace Dialer

/-!
Robust dialer variant, src/unnamed/part_000 lines 189-268
(function dialElevenLabsWS).
-/

/-- The two header styles tried per candidate (lines 216-219). -/
inductive AuthMode
  | xiApiKey
  | bearer
deriving DecidableEq

structure Candidate where
  url : String
  mode : AuthMode
deriving DecidableEq

/-- The fixed host priority list (lines 207-211): global, us, eu. -/
def baseHosts : List String :=
  ["wss://api.elevenlabs.io", "wss://api.us.elevenlabs.io", "wss://api.eu.elevenlabs.io"]

/-- Auth modes in the order tried for each base URL (lines 216-219). -/
def headerModes : List AuthMode := [AuthMode.xiApiKey, AuthMode.bearer]

/-- Candidate base URLs (lines 199-214): the override URL first when the
ELEVENLABS_REALTIME_URL env var is nonempty, then the three hosts with
the conversation path appended. -/
def candidateBases (realtimeUrl : String) : List String :=
  (if realtimeUrl = "" then [] else [realtimeUrl]) ++
    baseHosts.map (fun h => h ++ "/v1/convai/conversation")

/-- The ordered attempt sequence: for each base, the URL with the
agent_id query string (lines 223-228), once per header mode. The
URLSearchParams encoding is modelled as plain concatenation, which is
exact for the alphanumeric agent ids the query carries. -/
def dialAttempts (realtimeUrl agentId : String) : List Candidate :=
  (candidateBases realtimeUrl).flatMap (fun base =>
    headerModes.map (fun m => { url := base ++ "?agent_id=" ++ agentId, mode := m }))

/-- How a single handshake attempt resolves (lines 234-257): success,
an unexpected-response with a status, a socket error event, or the
8-second timeout. -/
inductive AttemptOutcome
  | success
  | unexpectedResponse (status : Nat) (statusMessage : String)
  | wsError (msg : String)
  | timeout
deriving DecidableEq

/-- One entry of the failures array. The status fields are set by the
unexpected-response handler (line 247), the error field by the error
handler (line 254). -/
structure DialFailure where
  url : String
  mode : AuthMode
  status : Option Nat
  statusMessage : Option String
  error : Option String
deriving DecidableEq

/-- What a failed attempt pushes onto the failures array: the
unexpected-response handler pushes a record with the status (line 247),
the error handler pushes a record with the message (line 254), and the
timeout path (line 235) rejects without pushing anything. -/
def attemptRecord (c : Candidate) : AttemptOutcome → Option DialFailure
  | .success => none
  | .unexpectedResponse st sm => some ⟨c.url, c.mode, some st, some sm, none⟩
  | .wsError m => some ⟨c.url, c.mode, none, none, some m⟩
  | .timeout => none

inductive DialResult
  | ok (c : Candidate)
  | allFailed (failures : List DialFailure)
deriving DecidableEq

/-- The nested candidate loop (lines 223-264): first success returns,
a failed attempt records per attemptRecord and continues; when the list
is exhausted the aggregate failure list is thrown (lines 266-267).
The outcome function stands for how the network resolves each attempt. -/
def dialLoop (outcome : Candidate → AttemptOutcome) :
    List Candidate → List DialFailure → DialResult
  | [], fs => .allFailed fs
  | c :: rest, fs =>
    match outcome c with
    | .success => .ok c
    | o => dialLoop outcome rest (fs ++ (attemptRecord c o).toList)

def dialElevenLabsWS (realtimeUrl agentId : String)
    (outcome : Candidate → AttemptOutcome) : DialResult :=
  dialLoop outcome (dialAttempts realtimeUrl agentId) []

end Dialer

namespace Heartbeat

/-!
Keep-alive sweep, src/server.js lines 78-116 (identical in the other
variants). The sweep interval iterates wss.clients, which holds the
registered call-leg sockets only; each agent-leg socket instead gets a
private interval from attachUpstreamKeepAlive.
-/

/-- A registered call-leg socket: its isAlive flag and whether
ws.terminate() has been called on it. -/
structure TwSock where
  isAlive : Bool
  terminated : Bool
deriving DecidableEq

/-- attachKeepAlive (lines 78-87) arms a fresh socket: isAlive true. -/
def attachKeepAlive : TwSock := ⟨true, false⟩

/-- The pong handler (lines 80-82). -/
def pongTw (ws : TwSock) : TwSock := { ws with isAlive := true }

/-- Sweep body for one registered call-leg socket (lines 89-103): a
socket whose isAlive flag is false is terminated; otherwise the flag is
cleared and a ping is sent. -/
def sweepClient (ws : TwSock) : TwSock :=
  if ws.isAlive = false then { ws with terminated := true }
  else { ws with isAlive := false }

/-- An agent-leg socket as the upstream keep-alive sees it. -/
structure AgentSock where
  isAlive : Bool
  readyState : Ws.ReadyState
  terminated : Bool
  pings : Nat
deriving DecidableEq

/-- Body of the per-upstream interval (lines 108-114): ping while OPEN.
No branch of attachUpstreamKeepAlive terminates the socket or clears
its isAlive flag. -/
def upstreamTick (a : AgentSock) : AgentSock :=
  if a.readyState = Ws.ReadyState.OPEN then { a with pings := a.pings + 1 } else a

/-- All sockets the process tracks: the call legs in wss.clients and
the agent legs armed by attachUpstreamKeepAlive. -/
structure World where
  callLegs : List TwSock
  agentLegs : List AgentSock
deriving DecidableEq

/-- One period of the process: the sweep interval body runs over
wss.clients and each upstream interval body fires once. -/
def tick (w : World) : World :=
  { callLegs := w.callLegs.map sweepClient, agentLegs := w.agentLegs.map upstreamTick }

def tickN : Nat → World → World
  | 0, w => w
  | n + 1, w => tickN n (tick w)

/-- Probe cycles for a single call-leg socket: each cycle optionally
delivers a pong and then runs the sweep body. -/
def runCycles (ws : TwSock) (sched : List Bool) : TwSock :=
  sched.foldl (fun s pong => sweepClient (if pong then pongTw s else s)) ws

end Heartbeat

namespace Upstream

/-!
attachUpstreamKeepAlive, src/server.js lines 105-116: arms a pong
handler, starts a ping interval, and clears that interval in the close
handler of the socket.
-/

structure Sock where
  readyState : Ws.ReadyState
  isAlive : Bool
  timerActive : Bool
  pings : Nat
deriving DecidableEq

/-- State of a freshly dialed agent socket right after
attachUpstreamKeepAlive runs: handshake still in flight, pong handler
armed, ping interval started. -/
def attachUpstreamKeepAlive : Sock := ⟨.CONNECTING, true, true, 0⟩

inductive Event
  | timerTick
  | pong
  | openEvt
  | closeEvt
deriving DecidableEq

/-- The socket events relevant to the keep-alive: the interval firing
(only possible while the interval is armed), a pong (line 107), the
open transition, and the close event whose handler clears the interval
(line 115). -/
def step (u : Sock) : Event → Sock
  | .timerTick =>
    if u.timerActive then
      (if u.readyState = .OPEN then { u with pings := u.pings + 1 } else u)
    else u
  | .pong => { u with isAlive := true }
  | .openEvt => if u.readyState = .CONNECTING then { u with readyState := .OPEN } else u
  | .closeEvt => { u with readyState := .CLOSED, timerActive := false }

end Upstream

namespace Ews

/-!
Express-ws variant, src/unnamed/part_000 lines 23-87: the variant that
implements the Protocol Translator. Per connection it holds streamSid,
the elevenReady flag, and the elWs socket; we additionally record the
trace of elWs.send calls, the media frames sent back on the call leg,
and the number of elWs.close calls.
-/

/-- Messages the handlers pass to elWs.send, in source order of their
construction sites: the session.update sent on open (lines 35-38), the
input-audio append (lines 69-72), the commit (line 77). -/
inductive AgentOut
  | sessionUpdate
  | append (audioB64 : String)
  | commit
deriving DecidableEq

/-- Parsed agent-leg inbound messages the handler dispatches on
(lines 41-58): the session.updated acknowledgment, an audio chunk, or
anything else. -/
inductive ElMsg
  | sessionUpdated
  | audioOut (b64 : String)
  | otherMsg
deriving DecidableEq

/-- A raw agent-leg frame: either JSON.parse throws (caught at
lines 55-57) or it parses to an ElMsg. -/
inductive RawEl
  | invalidEl
  | msg (m : ElMsg)
deriving DecidableEq

structure Session where
  streamSid : Option String
  elevenReady : Bool
  elState : Ws.ReadyState
  agentSends : List AgentOut
  twilioSends : List (String × String)
  elCloseCalls : Nat
deriving DecidableEq

/-- Connection state right after the handler at line 23 runs: elWs
freshly constructed (CONNECTING), streamSid null, elevenReady false. -/
def ewsInit : Session := ⟨none, false, .CONNECTING, [], [], 0⟩

/-- The elWs open handler (lines 33-39): the socket is now OPEN and the
session.update message is sent. -/
def stepElOpen (s : Session) : Session :=
  { s with elState := .OPEN, agentSends := s.agentSends ++ [AgentOut.sessionUpdate] }

/-- The elWs message handler (lines 41-58). A parse failure is caught
and only logged. session.updated sets elevenReady. An audio message is
forwarded to the call leg only when its base64 payload and streamSid
are both truthy. -/
def stepElMsg (s : Session) : RawEl → Session
  | .invalidEl => s
  | .msg .sessionUpdated => { s with elevenReady := true }
  | .msg (.audioOut b) =>
    match s.streamSid with
    | some sid =>
      if b ≠ "" ∧ sid ≠ "" then { s with twilioSends := s.twilioSends ++ [(sid, b)] }
      else s
    | none => s
  | .msg .otherMsg => s

/-- elWs.close() as called by the stop and close handlers: counts the
call; an unclosed socket moves to CLOSING. -/
def closeEl (s : Session) : Session :=
  { s with
    elCloseCalls := s.elCloseCalls + 1,
    elState := if s.elState = .CLOSED then .CLOSED else .CLOSING }

/-- The twilioWs message handler (lines 60-81). The raw frame goes
through a bare JSON.parse (line 61), so a malformed frame throws out of
the handler: that is the none result. A start stores the streamSid
field as-is; a media frame is appended to the agent leg only when
elevenReady and the socket is OPEN (line 68), and is otherwise dropped
with no state change; stop sends a commit and then calls close,
unconditionally (lines 75-79). -/
def stepTw (s : Session) : RawTw → Option Session
  | .invalid => none
  | .noEvent => some s
  | .evt (.start sid) => some { s with streamSid := sid }
  | .evt (.media p) =>
    some (if s.elevenReady = true ∧ s.elState = .OPEN
          then { s with agentSends := s.agentSends ++ [AgentOut.append p] }
          else s)
  | .evt .stop => some (closeEl { s with agentSends := s.agentSends ++ [AgentOut.commit] })
  | .evt .otherEvent => some s

/-- Sequential processing of call-leg frames; a thrown parse error
aborts the run. -/
def runTw (s : Session) : List RawTw → Option Session
  | [] => some s
  | r :: rest =>
    match stepTw s r with
    | some s2 => runTw s2 rest
    | none => none

/-- A session that has completed start-up on the agent side: the dial
succeeded (open event fired) and the session.updated acknowledgment
arrived. -/
def readySession : Session :=
  stepElMsg (stepElOpen ewsInit) (RawEl.msg ElMsg.sessionUpdated)

end Ews

namespace Ka

/-!
Keep-alive variant, src/server.js lines 127-216 (src/unnamed/part_001
lines 87-149 is the same code). connectUpstream here constructs the
socket synchronously, so elWS is CONNECTING immediately after a dial
begins. Sockets the session created are numbered in creation order and
elWS holds the index of the currently referenced one.
-/

structure Session where
  streamSid : Option String
  elWS : Option Nat
  socks : List Ws.ReadyState
deriving DecidableEq

def kaInit : Session := ⟨none, none, []⟩

/-- readyState of the socket elWS currently references. -/
def refState (s : Session) : Option Ws.ReadyState :=
  match s.elWS with
  | some i => s.socks.get? i
  | none => none

/-- The guard of connectUpstream (lines 136-142): skip when the held
socket is OPEN or CONNECTING. -/
def wantsDial (s : Session) : Bool :=
  match refState s with
  | some .OPEN => false
  | some .CONNECTING => false
  | _ => true

/-- connectUpstream (lines 135-170): under the guard, construct a new
socket (CONNECTING) and point elWS at it. -/
def connectUpstream (s : Session) : Session :=
  if wantsDial s then
    { s with socks := s.socks ++ [Ws.ReadyState.CONNECTING], elWS := some s.socks.length }
  else s

/-- The JavaScript fallback on line 180: parsed.start?.streamSid is
taken when truthy, and the empty string or a missing field falls back
to the placeholder. -/
def orUnknown : Option String → String
  | some sid => if sid = "" then "unknown" else sid
  | none => "unknown"

/-- The close performed by stop and by the call-leg close handler
(lines 191-195 and 206-210): close the referenced socket only when it
is OPEN. -/
def closeIfOpen (s : Session) : Session :=
  match s.elWS with
  | some i =>
    if s.socks.get? i = some Ws.ReadyState.OPEN
    then { s with socks := s.socks.set i Ws.ReadyState.CLOSING }
    else s
  | none => s

/-- The twilioWS message handler (lines 173-202): safeJSON returns null
on malformed input and the handler returns before the switch
(line 176), leaving everything unchanged; the media case is an empty
stub (lines 185-186); stop clears streamSid, closes the agent leg if
open, and drops the reference (lines 188-197). -/
def stepTwilioMsg (s : Session) : RawTw → Session
  | .invalid => s
  | .noEvent => s
  | .evt (.start sid) => connectUpstream { s with streamSid := some (orUnknown sid) }
  | .evt (.media _) => s
  | .evt .stop => { closeIfOpen s with streamSid := none, elWS := none }
  | .evt .otherEvent => s

end Ka

namespace Async

/-!
Robust-dialer variant, src/unnamed/part_000 lines 270-335. Here
connectUpstream awaits dialElevenLabsWS, so between the guard check and
the assignment of elWS the session keeps handling events; a pending
await is modelled as a dial in flight whose resolution is a separate
event. A resolved dial delivers an OPEN socket, assigns it to elWS
unconditionally (line 284), and attaches the keep-alive.
-/

structure Session where
  streamSid : Option String
  elWS : Option Nat
  socks : List Ws.ReadyState
  dialsInFlight : Nat
  twilioClosed : Bool
deriving DecidableEq

def asyncInit : Session := ⟨none, none, [], 0, false⟩

def aRefState (s : Session) : Option Ws.ReadyState :=
  match s.elWS with
  | some i => s.socks.get? i
  | none => none

/-- The guard of connectUpstream (lines 279-281), identical to the
synchronous variant but checked before the await. -/
def aWantsDial (s : Session) : Bool :=
  match aRefState s with
  | some .OPEN => false
  | some .CONNECTING => false
  | _ => true

/-- Close-if-open as run by the stop case (lines 315-317) and the
call-leg close handler (lines 328-330). -/
def aCloseIfOpen (s : Session) : Session :=
  match s.elWS with
  | some i =>
    if s.socks.get? i = some Ws.ReadyState.OPEN
    then { s with socks := s.socks.set i Ws.ReadyState.CLOSING }
    else s
  | none => s

inductive Event
  | twMsg (m : RawTw)
  | dialResolved
  | dialFailedEvt
  | elClose (i : Nat)
  | twClose
deriving DecidableEq

/-- One event of the session. start runs connectUpstream up to the
await: when the guard passes, a dial goes in flight (lines 302-306 and
278-283). dialResolved is the await returning with an open socket
(lines 283-289): elWS is assigned unconditionally, whatever socket it
held before and whether or not the call leg is still there.
dialFailedEvt is the catch (lines 290-292), which only logs. The
call-leg close handler closes the referenced socket only when OPEN and
nulls the reference (lines 326-332). -/
def stepAsync (s : Session) : Event → Session
  | .twMsg .invalid => s
  | .twMsg .noEvent => s
  | .twMsg (.evt (.start sid)) =>
    if aWantsDial { s with streamSid := some (Ka.orUnknown sid) }
    then { s with streamSid := some (Ka.orUnknown sid), dialsInFlight := s.dialsInFlight + 1 }
    else { s with streamSid := some (Ka.orUnknown sid) }
  | .twMsg (.evt (.media _)) => s
  | .twMsg (.evt .stop) => { aCloseIfOpen s with streamSid := none, elWS := none }
  | .twMsg (.evt .otherEvent) => s
  | .dialResolved =>
    if s.dialsInFlight = 0 then s
    else
      { s with
        dialsInFlight := s.dialsInFlight - 1,
        socks := s.socks ++ [Ws.ReadyState.OPEN],
        elWS := some s.socks.length }
  | .dialFailedEvt =>
    if s.dialsInFlight = 0 then s else { s with dialsInFlight := s.dialsInFlight - 1 }
  | .elClose i => { s with socks := s.socks.set i Ws.ReadyState.CLOSED }
  | .twClose => { aCloseIfOpen s with elWS := none, twilioClosed := true }

def run (s : Session) (evs : List Event) : Session :=
  evs.foldl stepAsync s

end Async

/-! ## Theorems -/

/-- C4: with a fixed configuration the attempt sequence is a fixed
list: when an override endpoint is configured it is tried first in
both auth modes, before any regional host, and the hosts then follow
in the order global, us, eu, each in both auth modes with xi-api-key
before bearer. The sequence is a pure function of the configuration,
so two dials with the same configuration produce the same sequence. -/
theorem candidate_order_deterministic (ov ai : String) (h : ov ≠ "") :
    Dialer.dialAttempts ov ai =
      [⟨ov ++ "?agent_id=" ++ ai, .xiApiKey⟩,
       ⟨ov ++ "?agent_id=" ++ ai, .bearer⟩,
       ⟨"wss://api.elevenlabs.io/v1/convai/conversation?agent_id=" ++ ai, .xiApiKey⟩,
       ⟨"wss://api.elevenlabs.io/v1/convai/conversation?agent_id=" ++ ai, .bearer⟩,
       ⟨"wss://api.us.elevenlabs.io/v1/convai/conversation?agent_id=" ++ ai, .xiApiKey⟩,
       ⟨"wss://api.us.elevenlabs.io/v1/convai/conversation?agent_id=" ++ ai, .bearer⟩,
       ⟨"wss://api.eu.elevenlabs.io/v1/convai/conversation?agent_id=" ++ ai, .xiApiKey⟩,
       ⟨"wss://api.eu.elevenlabs.io/v1/convai/conversation?agent_id=" ++ ai, .bearer⟩] ∧
    Dialer.dialAttempts "" ai =
      [⟨"wss://api.elevenlabs.io/v1/convai/conversation?agent_id=" ++ ai, .xiApiKey⟩,
       ⟨"wss://api.elevenlabs.io/v1/convai/conversation?agent_id=" ++ ai, .bearer⟩,
       ⟨"wss://api.us.elevenlabs.io/v1/convai/conversation?agent_id=" ++ ai, .xiApiKey⟩,
       ⟨"wss://api.us.elevenlabs.io/v1/convai/conversation?agent_id=" ++ ai, .bearer⟩,
       ⟨"wss://api.eu.elevenlabs.io/v1/convai/conversation?agent_id=" ++ ai, .xiApiKey⟩,
       ⟨"wss://api.eu.elevenlabs.io/v1/convai/conversation?agent_id=" ++ ai, .bearer⟩] := by
  constructor
  · unfold Dialer.dialAttempts Dialer.candidateBases
    rw [if_neg h]
    rfl
  · rfl

/-- Witness for candidate_order_deterministic at a concrete override
URL and agent id. -/
theorem candidate_order_deterministic_witness :
    Dialer.dialAttempts "wss://custom.example" "a1" =
      [⟨"wss://custom.example" ++ "?agent_id=" ++ "a1", .xiApiKey⟩,
       ⟨"wss://custom.example" ++ "?agent_id=" ++ "a1", .bearer⟩,
       ⟨"wss://api.elevenlabs.io/v1/convai/conversation?agent_id=" ++ "a1", .xiApiKey⟩,
       ⟨"wss://api.elevenlabs.io/v1/convai/conversation?agent_id=" ++ "a1", .bearer⟩,
       ⟨"wss://api.us.elevenlabs.io/v1/convai/conversation?agent_id=" ++ "a1", .xiApiKey⟩,
       ⟨"wss://api.us.elevenlabs.io/v1/convai/conversation?agent_id=" ++ "a1", .bearer⟩,
       ⟨"wss://api.eu.elevenlabs.io/v1/convai/conversation?agent_id=" ++ "a1", .xiApiKey⟩,
       ⟨"wss://api.eu.elevenlabs.io/v1/convai/conversation?agent_id=" ++ "a1", .bearer⟩] :=
  (candidate_order_deterministic "wss://custom.example" "a1" (by decide)).1

/-- Helper: filterMap over a cons splits into the head record and the
tail records. -/
theorem filterMap_cons_eq_toList_append {α β : Type} (f : α → Option β) (a : α) (l : List α) :
    List.filterMap f (a :: l) = (f a).toList ++ List.filterMap f l := by
  cases h : f a <;> simp [h]

/-- Helper for the dialer: when no attempt succeeds, the loop returns
the aggregate failure carrying the accumulated records followed by the
records of the remaining attempts. -/
theorem dialLoop_allFailed (outcome : Dialer.Candidate → Dialer.AttemptOutcome) :
    ∀ (cs : List Dialer.Candidate) (fs : List Dialer.DialFailure),
      (∀ c ∈ cs, outcome c ≠ .success) →
      Dialer.dialLoop outcome cs fs =
        .allFailed (fs ++ cs.filterMap (fun c => Dialer.attemptRecord c (outcome c)))
  | [], fs, _ => by simp [Dialer.dialLoop]
  | c :: rest, fs, hall => by
    have hc : outcome c ≠ .success := hall c (List.mem_cons_self c rest)
    have hrest : ∀ x ∈ rest, outcome x ≠ .success :=
      fun x hx => hall x (List.mem_cons_of_mem c hx)
    have step : Dialer.dialLoop outcome (c :: rest) fs =
        Dialer.dialLoop outcome rest (fs ++ (Dialer.attemptRecord c (outcome c)).toList) := by
      cases ho : outcome c
      case success => exact absurd ho hc
      all_goals simp only [Dialer.dialLoop, ho]
    rw [step, dialLoop_allFailed outcome rest _ hrest,
      filterMap_cons_eq_toList_append, List.append_assoc]

/-- C5 counterexample: when every attempt fails by the 8-second
timeout, the aggregate error carries an empty failure list even though
all six attempts of this configuration failed, so the error does not
carry one DialFailure per failed candidate attempt. -/
theorem dial_failures_claim_false :
    Dialer.dialElevenLabsWS "" "a" (fun _ => .timeout) = .allFailed [] ∧
    (Dialer.dialAttempts "" "a").length = 6 := by
  constructor
  · rfl
  · rfl

/-- C5 amended: when every candidate fails, the dialer returns a
single aggregate error whose ordered failure list has exactly one
record per attempt that failed with an explicit handshake rejection
(recorded with its status code) or a socket error event (recorded with
its message); attempts that fail by the timeout leave no record. -/
theorem dial_failures_recorded (r ai : String)
    (outcome : Dialer.Candidate → Dialer.AttemptOutcome)
    (hfail : ∀ c ∈ Dialer.dialAttempts r ai, outcome c ≠ .success) :
    Dialer.dialElevenLabsWS r ai outcome =
      .allFailed ((Dialer.dialAttempts r ai).filterMap
        (fun c => Dialer.attemptRecord c (outcome c))) := by
  unfold Dialer.dialElevenLabsWS
  rw [dialLoop_allFailed outcome _ [] hfail]
  rfl

/-- Witness for dial_failures_recorded: a run in which every attempt is
refused at the transport level yields one record per attempt. -/
theorem dial_failures_recorded_witness :
    Dialer.dialElevenLabsWS "" "a" (fun _ => .wsError "ECONNREFUSED") =
      .allFailed ((Dialer.dialAttempts "" "a").filterMap
        (fun c => Dialer.attemptRecord c ((fun _ => .wsError "ECONNREFUSED") c))) :=
  dial_failures_recorded "" "a" (fun _ => .wsError "ECONNREFUSED") (by decide)

/-- C2 counterexample: a world with one call-leg socket and one
agent-leg socket, neither of which ever answers a probe. After two
ticks the call leg has been terminated but the agent leg has only been
pinged twice and is still not terminated: the sweep iterates
wss.clients only, and no code path ever terminates an agent-leg socket
for a missed pong, refuting the claim for agent legs. -/
theorem heartbeat_claim_false :
    Heartbeat.tickN 2 ⟨[⟨true, false⟩], [⟨true, .OPEN, false, 0⟩]⟩ =
      ⟨[⟨false, true⟩], [⟨true, .OPEN, false, 2⟩]⟩ := by decide

/-- Helper: a call-leg socket that was just probed and answers every
cycle keeps cycling through the probed state without termination. -/
theorem runCycles_probed_true :
    ∀ n, Heartbeat.runCycles ⟨false, false⟩ (List.replicate n true) = ⟨false, false⟩
  | 0 => rfl
  | n + 1 => by
    rw [List.replicate_succ]
    show Heartbeat.runCycles
      (Heartbeat.sweepClient (Heartbeat.pongTw ⟨false, false⟩)) (List.replicate n true) = _
    exact runCycles_probed_true n

/-- Helper: after at least one all-pong cycle from a fresh socket, the
socket sits in the probed, unterminated state. -/
theorem runCycles_attach_true (n : Nat) (h : 1 ≤ n) :
    Heartbeat.runCycles Heartbeat.attachKeepAlive (List.replicate n true) = ⟨false, false⟩ := by
  cases n with
  | zero => exact absurd h (by decide)
  | succ m =>
    rw [List.replicate_succ]
    show Heartbeat.runCycles
      (Heartbeat.sweepClient (Heartbeat.pongTw ⟨true, false⟩)) (List.replicate m true) = _
    exact runCycles_probed_true m

/-- Helper: the per-upstream interval body never changes the terminated
flag of an agent-leg socket. -/
theorem upstreamTick_terminated (a : Heartbeat.AgentSock) :
    (Heartbeat.upstreamTick a).terminated = a.terminated := by
  unfold Heartbeat.upstreamTick
  split <;> rfl

/-- Helper: mapping the upstream interval body over the agent-leg list
leaves the terminated flags unchanged. -/
theorem agentLegs_terminated_map :
    ∀ l : List Heartbeat.AgentSock,
      (l.map Heartbeat.upstreamTick).map Heartbeat.AgentSock.terminated =
        l.map Heartbeat.AgentSock.terminated
  | [] => rfl
  | a :: rest => by
    simp only [List.map_cons, upstreamTick_terminated, agentLegs_terminated_map rest]

/-- Helper: across any number of ticks, no agent-leg socket is ever
terminated. -/
theorem tickN_agentLegs_terminated :
    ∀ (n : Nat) (w : Heartbeat.World),
      (Heartbeat.tickN n w).agentLegs.map Heartbeat.AgentSock.terminated =
        w.agentLegs.map Heartbeat.AgentSock.terminated
  | 0, _ => rfl
  | n + 1, w => by
    show (Heartbeat.tickN n (Heartbeat.tick w)).agentLegs.map Heartbeat.AgentSock.terminated = _
    rw [tickN_agentLegs_terminated n (Heartbeat.tick w)]
    exact agentLegs_terminated_map w.agentLegs

/-- C2 amended: the sweep terminates exactly the registered call-leg
sockets that missed the previous probe: a call leg that answers every
cycle is never terminated, a call leg that misses one probed cycle is
terminated on the following tick, and agent-leg sockets are never
terminated by the keep-alive machinery at all (their interval only
pings them). -/
theorem heartbeat_sweep_behavior :
    (∀ n, (Heartbeat.runCycles Heartbeat.attachKeepAlive (List.replicate n true)).terminated
      = false) ∧
    (∀ m, 1 ≤ m →
      (Heartbeat.runCycles Heartbeat.attachKeepAlive
        (List.replicate m true ++ [false])).terminated = true) ∧
    (∀ (w : Heartbeat.World) (n : Nat),
      (Heartbeat.tickN n w).agentLegs.map Heartbeat.AgentSock.terminated =
        w.agentLegs.map Heartbeat.AgentSock.terminated) := by
  refine ⟨?_, ?_, ?_⟩
  · intro n
    cases n with
    | zero => rfl
    | succ m => rw [runCycles_attach_true (m + 1) (Nat.succ_le_succ (Nat.zero_le m))]
  · intro m hm
    unfold Heartbeat.runCycles
    rw [List.foldl_append]
    show (Heartbeat.runCycles (Heartbeat.runCycles Heartbeat.attachKeepAlive
      (List.replicate m true)) [false]).terminated = true
    rw [runCycles_attach_true m hm]
    rfl
  · intro w n
    exact tickN_agentLegs_terminated n w

/-- Witness for heartbeat_sweep_behavior: three responsive cycles leave
the socket alive; one probed cycle followed by a missed response gets
it terminated. -/
theorem heartbeat_sweep_behavior_witness :
    (Heartbeat.runCycles Heartbeat.attachKeepAlive (List.replicate 3 true)).terminated = false ∧
    (Heartbeat.runCycles Heartbeat.attachKeepAlive
      (List.replicate 1 true ++ [false])).terminated = true :=
  ⟨heartbeat_sweep_behavior.1 3, heartbeat_sweep_behavior.2.1 1 (by decide)⟩

/-- Helper: each keep-alive event preserves the invariant that the
ping interval is armed exactly while the socket is not closed. -/
theorem upstream_step_inv (u : Upstream.Sock) (e : Upstream.Event)
    (h : u.timerActive = true ↔ u.readyState ≠ Ws.ReadyState.CLOSED) :
    (Upstream.step u e).timerActive = true ↔
      (Upstream.step u e).readyState ≠ Ws.ReadyState.CLOSED := by
  cases e <;> simp only [Upstream.step] <;> (try split_ifs) <;> simp_all

/-- Helper: the invariant carries over any event sequence. -/
theorem upstream_foldl_inv :
    ∀ (evs : List Upstream.Event) (u : Upstream.Sock),
      (u.timerActive = true ↔ u.readyState ≠ Ws.ReadyState.CLOSED) →
      ((evs.foldl Upstream.step u).timerActive = true ↔
        (evs.foldl Upstream.step u).readyState ≠ Ws.ReadyState.CLOSED)
  | [], _, h => h
  | e :: rest, u, h => upstream_foldl_inv rest (Upstream.step u e) (upstream_step_inv u e h)

/-- C10: for an agent-leg socket armed by attachUpstreamKeepAlive, after
any sequence of interval fires, pongs, the open transition and the
close event, the ping interval is armed exactly while the socket is not
closed: the close handler clears the interval, so no agent-leg ping
timer remains active after its socket has closed. -/
theorem upstream_timer_cleared_on_close (evs : List Upstream.Event) :
    ((evs.foldl Upstream.step Upstream.attachUpstreamKeepAlive).timerActive = true ↔
      (evs.foldl Upstream.step Upstream.attachUpstreamKeepAlive).readyState
        ≠ Ws.ReadyState.CLOSED) :=
  upstream_foldl_inv evs Upstream.attachUpstreamKeepAlive (by decide)

/-- Helper: in a ready session with an open agent leg, a burst of media
frames appends exactly the corresponding input-audio-append messages,
in order. -/
theorem runTw_media_aux :
    ∀ (ps : List String) (s : Ews.Session),
      s.elevenReady = true → s.elState = Ws.ReadyState.OPEN →
      Ews.runTw s (ps.map fun p => RawTw.evt (TwEvent.media p)) =
        some { s with agentSends := s.agentSends ++ ps.map Ews.AgentOut.append }
  | [], s, _, _ => by simp [Ews.runTw]
  | p :: rest, s, hr, ho => by
    have hstep : Ews.stepTw s (RawTw.evt (TwEvent.media p)) =
        some { s with agentSends := s.agentSends ++ [Ews.AgentOut.append p] } := by
      simp [Ews.stepTw, hr, ho]
    have ih := runTw_media_aux rest
      { s with agentSends := s.agentSends ++ [Ews.AgentOut.append p] } hr ho
    simp only [List.map_cons, Ews.runTw, hstep, ih]
    simp [List.append_assoc]

/-- C1: in a session that has seen the start event, a successful dial
(agent socket OPEN) and the session-ready acknowledgment (elevenReady),
each media frame produces exactly one input-audio-append message
carrying its payload, a burst of frames P1, P2, P3 is appended in the
same order with no duplication, and a media frame arriving before the
ready acknowledgment leaves the session completely unchanged (the frame
is dropped, not buffered). -/
theorem ews_media_roundtrip (s : Ews.Session) (hr : s.elevenReady = true)
    (ho : s.elState = Ws.ReadyState.OPEN) (ps : List String) :
    Ews.runTw s (ps.map fun p => RawTw.evt (TwEvent.media p)) =
      some { s with agentSends := s.agentSends ++ ps.map Ews.AgentOut.append } ∧
    (∀ (t : Ews.Session) (p : String), t.elevenReady = false →
      Ews.stepTw t (RawTw.evt (TwEvent.media p)) = some t) := by
  refine ⟨runTw_media_aux ps s hr ho, ?_⟩
  intro t p hre
  simp [Ews.stepTw, hre]

/-- Witness for ews_media_roundtrip: from the freshly connected session
taken through the open event and the ready acknowledgment, the burst
P1, P2, P3 yields exactly the three append messages in order; the same
frame sent before readiness changes nothing. -/
theorem ews_media_roundtrip_witness :
    Ews.runTw Ews.readySession
      (["P1", "P2", "P3"].map fun p => RawTw.evt (TwEvent.media p)) =
      some { Ews.readySession with
        agentSends := Ews.readySession.agentSends ++
          ["P1", "P2", "P3"].map Ews.AgentOut.append } ∧
    Ews.stepTw Ews.ewsInit (RawTw.evt (TwEvent.media "P1")) = some Ews.ewsInit :=
  ⟨(ews_media_roundtrip Ews.readySession rfl rfl ["P1", "P2", "P3"]).1,
   (ews_media_roundtrip Ews.readySession rfl rfl ["P1", "P2", "P3"]).2 Ews.ewsInit "P1" rfl⟩

/-- C3 counterexample: in the freshly connected session the agent leg
is still CONNECTING, hence not open, yet the stop handler still issues
the commit send and the close call: the claim that a stop sends
nothing to a non-open agent leg is false. -/
theorem stop_commit_claim_false :
    Ews.stepTw Ews.ewsInit (RawTw.evt TwEvent.stop) =
      some { Ews.ewsInit with
        agentSends := [Ews.AgentOut.commit],
        elState := Ws.ReadyState.CLOSING,
        elCloseCalls := 1 } := rfl

/-- C3 amended: a call-leg stop event always results in exactly one
commit send followed by exactly one close call on the agent leg,
whether or not the agent leg is open; when it is open this is exactly
the claimed commit-then-graceful-close, and when it is not open the
send and close are attempted all the same. -/
theorem stop_commit_close_always (s : Ews.Session) :
    Ews.stepTw s (RawTw.evt TwEvent.stop) =
      some { s with
        agentSends := s.agentSends ++ [Ews.AgentOut.commit],
        elState := if s.elState = Ws.ReadyState.CLOSED
                   then Ws.ReadyState.CLOSED else Ws.ReadyState.CLOSING,
        elCloseCalls := s.elCloseCalls + 1 } := rfl

/-- C8 counterexample: a malformed call-leg frame in the express-ws
variant goes through a bare JSON.parse, so the handler throws (the none
result) instead of silently dropping the frame: an exception does
propagate out of the translator boundary in that variant. -/
theorem malformed_drop_claim_false :
    Ews.stepTw Ews.ewsInit RawTw.invalid = none := rfl

/-- C8 amended: malformed frames are dropped silently with the session
state unchanged wherever safeJSON guards the parse (the call-leg
handler of the keep-alive variants, including its no-event early
return) and where the agent-leg handler catches parse errors (the
express-ws variant); only the express-ws call-leg handler, which parses
without a guard, throws instead. -/
theorem malformed_dropped_silently :
    (∀ t : Ka.Session,
      Ka.stepTwilioMsg t RawTw.invalid = t ∧ Ka.stepTwilioMsg t RawTw.noEvent = t) ∧
    (∀ a : Async.Session, Async.stepAsync a (Async.Event.twMsg RawTw.invalid) = a) ∧
    (∀ s : Ews.Session, Ews.stepElMsg s Ews.RawEl.invalidEl = s) :=
  ⟨fun _ => ⟨rfl, rfl⟩, fun _ => rfl, fun _ => rfl⟩

/-- Helper: when the session holds no agent-leg reference,
connectUpstream dials: it creates a fresh CONNECTING socket and points
elWS at it. -/
theorem connectUpstream_no_ref (s : Ka.Session) (h : s.elWS = none) :
    Ka.connectUpstream s =
      { s with socks := s.socks ++ [Ws.ReadyState.CONNECTING],
               elWS := some s.socks.length } := by
  have hw : Ka.wantsDial s = true := by
    unfold Ka.wantsDial Ka.refState
    rw [h]
  unfold Ka.connectUpstream
  rw [if_pos hw]

/-- C9: a start event whose payload has no streamSid field sets the
session streamSid to the placeholder string, and upstream dialing is
still invoked: when no agent leg is held, the dial creates one. -/
theorem start_without_sid_unknown (t : Ka.Session) :
    (Ka.stepTwilioMsg t (RawTw.evt (TwEvent.start none))).streamSid = some "unknown" ∧
    (t.elWS = none →
      (Ka.stepTwilioMsg t (RawTw.evt (TwEvent.start none))).socks
          = t.socks ++ [Ws.ReadyState.CONNECTING] ∧
      (Ka.stepTwilioMsg t (RawTw.evt (TwEvent.start none))).elWS
          = some t.socks.length) := by
  constructor
  · show (Ka.connectUpstream { t with streamSid := some (Ka.orUnknown none) }).streamSid
        = some "unknown"
    unfold Ka.connectUpstream
    split <;> rfl
  · intro h
    show (Ka.connectUpstream { t with streamSid := some (Ka.orUnknown none) }).socks = _ ∧
         (Ka.connectUpstream { t with streamSid := some (Ka.orUnknown none) }).elWS = _
    rw [connectUpstream_no_ref { t with streamSid := some (Ka.orUnknown none) } h]
    exact ⟨rfl, rfl⟩

/-- Witness for start_without_sid_unknown: the fresh session receives a
start event without a streamSid field. -/
theorem start_without_sid_unknown_witness :
    (Ka.stepTwilioMsg Ka.kaInit (RawTw.evt (TwEvent.start none))).streamSid
        = some "unknown" ∧
    (Ka.stepTwilioMsg Ka.kaInit (RawTw.evt (TwEvent.start none))).socks
        = [Ws.ReadyState.CONNECTING] ∧
    (Ka.stepTwilioMsg Ka.kaInit (RawTw.evt (TwEvent.start none))).elWS = some 0 :=
  ⟨(start_without_sid_unknown Ka.kaInit).1, (start_without_sid_unknown Ka.kaInit).2 rfl⟩

/-- C6 counterexample: in the robust-dialer variant, two start events
arriving while the first dial is still awaiting its result both pass
the connectUpstream guard (elWS is still null during the await), so two
dials go out and, once both resolve, the session has created two
simultaneously OPEN agent-leg sockets, the first of them orphaned. -/
theorem single_agent_leg_claim_false :
    (Async.run Async.asyncInit
      [Async.Event.twMsg (RawTw.evt (TwEvent.start (some "S"))),
       Async.Event.twMsg (RawTw.evt (TwEvent.start (some "S"))),
       Async.Event.dialResolved, Async.Event.dialResolved]).socks
      = [Ws.ReadyState.OPEN, Ws.ReadyState.OPEN] := by decide

/-- C6 amended: the connectUpstream guard prevents a second dial only
while the held agent-leg socket is OPEN or CONNECTING; a start event
arriving while a dial is still in flight (no socket assigned yet)
passes the guard and starts another dial, so two simultaneously open
agent-leg connections are possible for one session. -/
theorem connect_guard_behavior :
    (∀ t : Ka.Session,
      (Ka.refState t = some Ws.ReadyState.OPEN ∨
       Ka.refState t = some Ws.ReadyState.CONNECTING) →
      Ka.connectUpstream t = t) ∧
    (∀ (a : Async.Session) (sid : Option String), a.elWS = none →
      (Async.stepAsync a (Async.Event.twMsg (RawTw.evt (TwEvent.start sid)))).dialsInFlight
        = a.dialsInFlight + 1) := by
  constructor
  · intro t h
    have hw : Ka.wantsDial t = false := by
      unfold Ka.wantsDial
      rcases h with h | h <;> rw [h]
    unfold Ka.connectUpstream
    rw [if_neg (by simp [hw])]
  · intro a sid h
    have h2 : Async.aWantsDial { a with streamSid := some (Ka.orUnknown sid) } = true := by
      unfold Async.aWantsDial Async.aRefState
      rw [show ({ a with streamSid := some (Ka.orUnknown sid) } : Async.Session).elWS
            = none from h]
    simp [Async.stepAsync, h2]

/-- Witness for connect_guard_behavior: a session that just dialed
(socket CONNECTING) ignores a repeated connectUpstream, and the fresh
async session increments its in-flight dials on start. -/
theorem connect_guard_behavior_witness :
    Ka.connectUpstream (Ka.connectUpstream Ka.kaInit) = Ka.connectUpstream Ka.kaInit ∧
    (Async.stepAsync Async.asyncInit
      (Async.Event.twMsg (RawTw.evt (TwEvent.start (some "S"))))).dialsInFlight = 1 :=
  ⟨connect_guard_behavior.1 (Ka.connectUpstream Ka.kaInit) (Or.inr (by decide)),
   connect_guard_behavior.2 Async.asyncInit (some "S") rfl⟩

/-- C7 counterexample: the call leg closes while the dial is in
flight; when the dial then resolves, the session attaches the new
socket OPEN (elWS = first socket, twilioClosed), and nothing ever
closes it: the dial is not abandoned and the agent socket outlives its
session. -/
theorem dial_cancellation_claim_false :
    Async.run Async.asyncInit
      [Async.Event.twMsg (RawTw.evt (TwEvent.start (some "S"))),
       Async.Event.twClose, Async.Event.dialResolved] =
      ⟨some "S", some 0, [Ws.ReadyState.OPEN], 0, true⟩ := by decide

/-- C7 amended: a call-leg close closes only an already attached OPEN
agent socket; an in-flight dial is not cancelled: whenever a dial is
pending, its resolution attaches a fresh OPEN socket to the session,
whether or not the call leg has already closed. -/
theorem dial_resolution_after_close :
    (∀ a : Async.Session, a.dialsInFlight ≠ 0 →
      Async.stepAsync a Async.Event.dialResolved =
        { a with dialsInFlight := a.dialsInFlight - 1,
                 socks := a.socks ++ [Ws.ReadyState.OPEN],
                 elWS := some a.socks.length }) ∧
    (∀ a : Async.Session, Async.aRefState a ≠ some Ws.ReadyState.OPEN →
      (Async.stepAsync a Async.Event.twClose).socks = a.socks) := by
  constructor
  · intro a h
    simp [Async.stepAsync, h]
  · intro a h
    cases he : a.elWS with
    | none => simp [Async.stepAsync, Async.aCloseIfOpen, he]
    | some i =>
      have hns : a.socks[i]? ≠ some Ws.ReadyState.OPEN := by
        intro hc
        exact h (by unfold Async.aRefState; rw [he]; simpa using hc)
      simp [Async.stepAsync, Async.aCloseIfOpen, he, hns]

/-- Witness for dial_resolution_after_close: a session whose call leg
is already closed with one pending dial attaches the resolved OPEN
socket; the fresh session loses no socket on call-leg close. -/
theorem dial_resolution_after_close_witness :
    Async.stepAsync ⟨some "S", none, [], 1, true⟩ Async.Event.dialResolved =
      ⟨some "S", some 0, [Ws.ReadyState.OPEN], 0, true⟩ ∧
    (Async.stepAsync Async.asyncInit Async.Event.twClose).socks = [] :=
  ⟨dial_resolution_after_close.1 ⟨some "S", none, [], 1, true⟩ (by decide),
   dial_resolution_after_close.2 Async.asyncInit (by decide)⟩
